import Mathlib

/-!
Verification of `src/blogger_agent/config.py`.

The module declares a `@dataclass ResearchConfiguration` with three fields,
each carrying a default value, and a module-level instance `config`
constructed with no overrides.  We embed the dataclass as a Lean structure,
its generated `__init__` (keyword arguments with defaults) as an
`Option`-based constructor, and its generated `__eq__` (field-tuple
comparison) as a Boolean function.
-/

/-- The `ResearchConfiguration` dataclass: three scalar fields.
Python `str` is embedded as `String`, Python `int` (arbitrary precision,
signed) as `Int`. -/
structure ResearchConfiguration where
  critic_model : String
  worker_model : String
  max_search_iterations : Int
deriving DecidableEq, Repr

/-- Default of `critic_model` (config.py line 18). -/
def DEFAULT_CRITIC_MODEL : String := "gemini-2.5-pro"

/-- Default of `worker_model` (config.py line 19). -/
def DEFAULT_WORKER_MODEL : String := "gemini-2.5-flash"

/-- Default of `max_search_iterations` (config.py line 20). -/
def DEFAULT_MAX_SEARCH_ITERATIONS : Int := 5

/-- The dataclass-generated `__init__`: each keyword argument is optional
(`none` means "not supplied"); an unsupplied field takes its default.
The body only assigns the three fields; there is no validation. -/
def mkResearchConfiguration (critic worker : Option String)
    (iters : Option Int) : ResearchConfiguration :=
  ⟨critic.getD DEFAULT_CRITIC_MODEL,
   worker.getD DEFAULT_WORKER_MODEL,
   iters.getD DEFAULT_MAX_SEARCH_ITERATIONS⟩

/-- The module-level shared instance `config = ResearchConfiguration()`
(config.py line 23): constructed with no overrides. -/
def config : ResearchConfiguration :=
  mkResearchConfiguration none none none

/-- Read access to the `critic_model` field. -/
def readCriticModel (cfg : ResearchConfiguration) : String :=
  cfg.critic_model

/-- Read access to the `worker_model` field. -/
def readWorkerModel (cfg : ResearchConfiguration) : String :=
  cfg.worker_model

/-- Read access to the `max_search_iterations` field. -/
def readMaxSearchIterations (cfg : ResearchConfiguration) : Int :=
  cfg.max_search_iterations

/-- A trace of `k` successive reads of `critic_model` on the same holder. -/
def readTraceCritic (cfg : ResearchConfiguration) (k : Nat) : List String :=
  (List.range k).map (fun _ => readCriticModel cfg)

/-- A trace of `k` successive reads of `worker_model` on the same holder. -/
def readTraceWorker (cfg : ResearchConfiguration) (k : Nat) : List String :=
  (List.range k).map (fun _ => readWorkerModel cfg)

/-- A trace of `k` successive reads of `max_search_iterations` on the same
holder. -/
def readTraceIters (cfg : ResearchConfiguration) (k : Nat) : List Int :=
  (List.range k).map (fun _ => readMaxSearchIterations cfg)

/-- The operations the module exposes on a constructed holder: the class
defines no methods beyond the dataclass-generated ones, so the surface is
read access to each of the three fields. -/
inductive ConfigOp where
  | readCritic : ConfigOp
  | readWorker : ConfigOp
  | readIters : ConfigOp
deriving DecidableEq, Repr

/-- Result of one exposed operation. -/
inductive OpResult where
  | str : String → OpResult
  | int : Int → OpResult
deriving DecidableEq, Repr

/-- Run one exposed operation on a holder, returning the holder state after
the operation together with the operation's result. -/
def runOp (op : ConfigOp) (cfg : ResearchConfiguration) :
    ResearchConfiguration × OpResult :=
  match op with
  | .readCritic => (cfg, .str cfg.critic_model)
  | .readWorker => (cfg, .str cfg.worker_model)
  | .readIters => (cfg, .int cfg.max_search_iterations)

/-- The dataclass-generated `__eq__`: two instances of the same dataclass
compare equal exactly when their field tuples compare equal. -/
def researchConfigurationEq (a b : ResearchConfiguration) : Bool :=
  a.critic_model == b.critic_model &&
  a.worker_model == b.worker_model &&
  a.max_search_iterations == b.max_search_iterations

/-- Claim C1: for a holder constructed with no overrides, `critic_model`
equals "gemini-2.5-pro", `worker_model` equals "gemini-2.5-flash", and
`max_search_iterations` equals 5. -/
theorem c1_defaults :
    (mkResearchConfiguration none none none).critic_model = "gemini-2.5-pro" ∧
    (mkResearchConfiguration none none none).worker_model = "gemini-2.5-flash" ∧
    (mkResearchConfiguration none none none).max_search_iterations = 5 :=
  ⟨rfl, rfl, rfl⟩

/-- Claim C2: overriding exactly one field leaves the other two at their
defaults; in particular overriding `max_search_iterations` to 10 yields the
two default model identifiers together with 10. -/
theorem c2_single_override :
    (∀ c : String, mkResearchConfiguration (some c) none none =
      ⟨c, "gemini-2.5-flash", 5⟩) ∧
    (∀ w : String, mkResearchConfiguration none (some w) none =
      ⟨"gemini-2.5-pro", w, 5⟩) ∧
    (∀ n : Int, mkResearchConfiguration none none (some n) =
      ⟨"gemini-2.5-pro", "gemini-2.5-flash", n⟩) ∧
    mkResearchConfiguration none none (some 10) =
      ⟨"gemini-2.5-pro", "gemini-2.5-flash", 10⟩ :=
  ⟨fun _ => rfl, fun _ => rfl, fun _ => rfl, rfl⟩

/-- Claim C3: for every choice of strings `c`, `w` and integer `n`, a holder
constructed with all three fields overridden stores exactly the supplied
values, with no coercion or truncation. -/
theorem c3_all_overrides (c w : String) (n : Int) :
    mkResearchConfiguration (some c) (some w) (some n) = ⟨c, w, n⟩ :=
  rfl

/-- Claim C4: construction is total — every well-typed combination of inputs,
including an empty identifier string and a zero or negative
`max_search_iterations`, yields a holder; no validation is performed. -/
theorem c4_construction_total :
    (∀ (c w : Option String) (n : Option Int),
      ∃ cfg : ResearchConfiguration, mkResearchConfiguration c w n = cfg) ∧
    mkResearchConfiguration (some "") (some "") (some 0) = ⟨"", "", 0⟩ ∧
    mkResearchConfiguration none none (some (-5)) =
      ⟨"gemini-2.5-pro", "gemini-2.5-flash", -5⟩ :=
  ⟨fun c w n => ⟨mkResearchConfiguration c w n, rfl⟩, rfl, rfl⟩

/-- Claim C5: every read in a trace of `k` repeated reads of any field of a
constructed holder returns the same value as any other read of that field. -/
theorem c5_reads_stable (cfg : ResearchConfiguration) (k : Nat) :
    ((readTraceCritic cfg k).all (fun s => s == readCriticModel cfg)) = true ∧
    ((readTraceWorker cfg k).all (fun s => s == readWorkerModel cfg)) = true ∧
    ((readTraceIters cfg k).all (fun n => n == readMaxSearchIterations cfg)) = true := by
  refine ⟨?_, ?_, ?_⟩ <;>
    simp [readTraceCritic, readTraceWorker, readTraceIters, List.all_eq_true]

/-- Claim C6: no operation exposed by the component mutates a constructed
holder — running any exposed operation leaves every field unchanged. -/
theorem c6_no_mutation (op : ConfigOp) (cfg : ResearchConfiguration) :
    (runOp op cfg).1 = cfg := by
  cases op <;> rfl

/-- Claim C7: construction is deterministic (and pure, as reflected by the
constructor's effect-free type): two constructions with equal arguments yield
holders whose three fields are equal. -/
theorem c7_deterministic (c c' w w' : Option String) (n n' : Option Int)
    (hc : c = c') (hw : w = w') (hn : n = n') :
    (mkResearchConfiguration c w n).critic_model =
      (mkResearchConfiguration c' w' n').critic_model ∧
    (mkResearchConfiguration c w n).worker_model =
      (mkResearchConfiguration c' w' n').worker_model ∧
    (mkResearchConfiguration c w n).max_search_iterations =
      (mkResearchConfiguration c' w' n').max_search_iterations := by
  subst hc; subst hw; subst hn; exact ⟨rfl, rfl, rfl⟩

/-- Witness for C7 at a concrete pair of equal argument lists. -/
theorem c7_deterministic_witness :
    (mkResearchConfiguration (some "m") none (some 7)).critic_model =
      (mkResearchConfiguration (some "m") none (some 7)).critic_model ∧
    (mkResearchConfiguration (some "m") none (some 7)).worker_model =
      (mkResearchConfiguration (some "m") none (some 7)).worker_model ∧
    (mkResearchConfiguration (some "m") none (some 7)).max_search_iterations =
      (mkResearchConfiguration (some "m") none (some 7)).max_search_iterations :=
  c7_deterministic (some "m") (some "m") none none (some 7) (some 7) rfl rfl rfl

/-- Claim C8: every constructed holder has all three fields valued — each
field is either the documented default or exactly the override supplied at
construction. -/
theorem c8_fields_valued (c w : Option String) (n : Option Int) :
    ((mkResearchConfiguration c w n).critic_model = DEFAULT_CRITIC_MODEL ∨
      some (mkResearchConfiguration c w n).critic_model = c) ∧
    ((mkResearchConfiguration c w n).worker_model = DEFAULT_WORKER_MODEL ∨
      some (mkResearchConfiguration c w n).worker_model = w) ∧
    ((mkResearchConfiguration c w n).max_search_iterations =
        DEFAULT_MAX_SEARCH_ITERATIONS ∨
      some (mkResearchConfiguration c w n).max_search_iterations = n) := by
  refine ⟨?_, ?_, ?_⟩
  · cases c with
    | none => exact Or.inl rfl
    | some v => exact Or.inr rfl
  · cases w with
    | none => exact Or.inl rfl
    | some v => exact Or.inr rfl
  · cases n with
    | none => exact Or.inl rfl
    | some v => exact Or.inr rfl

/-- Claim C9: the module exposes a shared default instance `config`,
constructed with no overrides, whose fields hold the three defaults. -/
theorem c9_shared_instance :
    config = mkResearchConfiguration none none none ∧
    config.critic_model = "gemini-2.5-pro" ∧
    config.worker_model = "gemini-2.5-flash" ∧
    config.max_search_iterations = 5 :=
  ⟨rfl, rfl, rfl, rfl⟩

/-- Claim C10: the dataclass-generated equality is structural — two holders
compare equal exactly when their three fields are pairwise equal, which is
exactly when they are equal as values. -/
theorem c10_structural_eq (a b : ResearchConfiguration) :
    (researchConfigurationEq a b = true ↔
      (a.critic_model = b.critic_model ∧
       a.worker_model = b.worker_model ∧
       a.max_search_iterations = b.max_search_iterations)) ∧
    (researchConfigurationEq a b = true ↔ a = b) := by
  cases a with
  | mk ac aw an =>
    cases b with
    | mk bc bw bn =>
      simp [researchConfigurationEq, ResearchConfiguration.mk.injEq, and_assoc]
